import Mathlib

/-!
Verification of the sougou-wechat crawler (src/sougou_crawl.py and
src/sqlite_storage.py) against its natural-language specification.

Strings from the Python side are modelled as `List Char` (Python `str`
length and slicing count Unicode code points, exactly as `List Char`
does).  Network requests, the headless-browser surface and the SQLite
engine are modelled as explicit oracles / explicit state; everything the
claims quantify over is translated from the source code.
-/

set_option maxRecDepth 100000

namespace SougouWechat

/-! ## Basic character and string utilities -/

/-- The single-quote character, written numerically so the source file
contains no apostrophe. -/
def squote : Char := Char.ofNat 39

/-- The double-quote character. -/
def dquote : Char := Char.ofNat 34

/-- Model of the Python whitespace set used by `str.strip()`
(space, tab, newline, carriage return, vertical tab, form feed). -/
def isPySpace (c : Char) : Bool :=
  c = ' ' || c = Char.ofNat 9 || c = Char.ofNat 10 || c = Char.ofNat 13 ||
  c = Char.ofNat 11 || c = Char.ofNat 12

/-- Model of Python `str.strip()`: drop leading and trailing whitespace. -/
def stripChars (l : List Char) : List Char :=
  ((l.dropWhile isPySpace).reverse.dropWhile isPySpace).reverse

/-- Does the list `l` start with the pattern `pat`? -/
def startsWithL : List Char → List Char → Bool
  | _, [] => true
  | [], _ :: _ => false
  | c :: cs, p :: ps => c = p && startsWithL cs ps

/-- Model of the Python substring test `pat in l`. -/
def hasSubstr (pat : List Char) : List Char → Bool
  | [] => startsWithL [] pat
  | c :: rest => startsWithL (c :: rest) pat || hasSubstr pat rest

/-- Split a maximal leading run of decimal digits off a list. -/
def digitsSplit : List Char → List Char × List Char
  | [] => ([], [])
  | c :: rest =>
      if c.isDigit then
        let p := digitsSplit rest
        (c :: p.1, p.2)
      else ([], c :: rest)

/-- Decimal value of a digit list, as computed by Python `int`. -/
def digitsToNat (ds : List Char) : Nat :=
  ds.foldl (fun n c => n * 10 + (c.toNat - 48)) 0

/-- Decimal rendering of a natural number (used for log-style messages). -/
def natToChars (n : Nat) : List Char := Nat.toDigits 10 n

/-! ## UrlResolver: WeChatCrawler.extract_real_url

The Python code first applies `re.findall` with the raw pattern
url \+= ASCII39 ([^ASCII39]+) ASCII39 ; and, when that yields at least one
fragment, returns the concatenation of all fragments in order of
appearance.  Otherwise it applies `re.search` with the raw pattern
https://mp\.weixin\.qq\.com/s\? [^ dquote squote ]* and returns the match
stripped of surrounding whitespace, and `None` when that also fails.

Because the fragment class excludes the single quote, each candidate
match is forced: after the literal opening, the fragment is exactly the
run of characters up to the next single quote, which must be followed by
a semicolon.  Scanning is left to right and non-overlapping, as
`re.findall` does. -/

/-- The literal opening of a fragment statement: url, space, plus, equals,
space, single quote. -/
def urlAddLit : List Char := "url += ".toList ++ [squote]

/-- Split a list at the first single quote: returns the run before the
quote and the remainder after it, or none when no quote occurs. -/
def splitAtSquote : List Char → Option (List Char × List Char)
  | [] => none
  | c :: rest =>
      if c = squote then some ([], rest)
      else
        match splitAtSquote rest with
        | some p => some (c :: p.1, p.2)
        | none => none

/-- Attempt to match one fragment statement at the head of the list.
On success returns the fragment and the remainder after the closing
semicolon. -/
def matchFragAt (l : List Char) : Option (List Char × List Char) :=
  if startsWithL l urlAddLit then
    match splitAtSquote (l.drop urlAddLit.length) with
    | some p =>
        match p.2 with
        | c :: rest2 => if p.1 ≠ [] ∧ c = ';' then some (p.1, rest2) else none
        | [] => none
    | none => none
  else none

/-- Left-to-right non-overlapping scan for fragment statements, with fuel
(the fuel is the length of the scanned list, which strictly bounds the
number of scanning steps). -/
def findFragmentsAux : Nat → List Char → List (List Char)
  | 0, _ => []
  | _ + 1, [] => []
  | fuel + 1, c :: rest =>
      match matchFragAt (c :: rest) with
      | some p => p.1 :: findFragmentsAux fuel p.2
      | none => findFragmentsAux fuel rest

/-- All fragment occurrences of the pattern, in order of appearance
(model of `re.findall` with the fragment pattern). -/
def findFragments (l : List Char) : List (List Char) :=
  findFragmentsAux l.length l

/-- The canonical article URL literal of the fallback pattern. -/
def urlLit : List Char := "https://mp.weixin.qq.com/s?".toList

/-- Model of `re.search` with the fallback pattern: the leftmost
occurrence of the literal followed by the maximal run of characters that
are neither a double quote nor a single quote. -/
def findFirstUrl : List Char → Option (List Char)
  | [] => none
  | c :: rest =>
      if startsWithL (c :: rest) urlLit then
        some (urlLit ++
          (List.drop urlLit.length (c :: rest)).takeWhile
            (fun ch => !(ch = dquote || ch = squote)))
      else findFirstUrl rest

/-- Model of `WeChatCrawler.extract_real_url`: fragment concatenation,
then the stripped fallback match, then none. -/
def extract_real_url (s : List Char) : Option (List Char) :=
  let frags := findFragments s
  if frags.isEmpty then
    match findFirstUrl s with
    | some m => some (stripChars m)
    | none => none
  else some frags.flatten

/-! ## SearchResultParser: WeChatCrawler._parse_search_results

A listing item (one li element of ul.news-list) is abstracted as the
texts the parser reads from it.  Text extraction with
`get_text(strip=True)` is modelled by applying `stripChars` to the raw
text carried by the item. -/

/-- Does the raw date pattern, four digits, dash, one or two digits,
dash, one or two digits, match at the head of the list?  The bounded
digit groups of the Python pattern give exactly the two alternatives
below (the group cannot cross a non-digit). -/
def dateAt (l : List Char) : Bool :=
  match l with
  | a :: b :: c :: d :: '-' :: rest =>
      a.isDigit && b.isDigit && c.isDigit && d.isDigit &&
      (match rest with
       | x :: '-' :: r2 =>
           x.isDigit &&
             (match r2 with
              | y :: _ => y.isDigit
              | [] => false)
       | x :: y :: '-' :: r3 =>
           x.isDigit && y.isDigit &&
             (match r3 with
              | z :: _ => z.isDigit
              | [] => false)
       | _ => false)
  | _ => false

/-- Model of re.search with the date pattern: some suffix matches. -/
def hasDate : List Char → Bool
  | [] => false
  | c :: rest => dateAt (c :: rest) || hasDate rest

/-- Literal pieces of the relative-time pattern. -/
def todayLit : List Char := "今日".toList

/-- Literal for yesterday. -/
def yesterdayLit : List Char := "昨日".toList

/-- Literal for hours-ago. -/
def hoursLit : List Char := "小时前".toList

/-- Literal for minutes-ago. -/
def minutesLit : List Char := "分钟前".toList

/-- Does a digits-then-unit alternative match at the head?  A match of
digits-plus followed by the unit exists somewhere iff some position holds
a digit immediately followed by the unit literal (take the last digit of
the matched run). -/
def relAt (l : List Char) : Bool :=
  match l with
  | c :: rest => c.isDigit && (startsWithL rest hoursLit || startsWithL rest minutesLit)
  | [] => false

/-- Any suffix matching the digits-then-unit alternative. -/
def hasRelDigits : List Char → Bool
  | [] => false
  | c :: rest => relAt (c :: rest) || hasRelDigits rest

/-- Model of re.search with the relative-time pattern. -/
def hasRelTime (l : List Char) : Bool :=
  hasSubstr todayLit l || hasSubstr yesterdayLit l || hasRelDigits l

/-- The platform boilerplate string excluded from summaries and sources. -/
def boilerLit : List Char := "微信公众平台".toList

/-- The three-dot ellipsis marker appended by the summary truncation. -/
def ellipsisLit : List Char := "...".toList

/-- Summary selection: the first paragraph text (stripped) that is longer
than 20 characters, matches neither date-like pattern, and does not
contain the boilerplate string; texts longer than 300 characters are cut
to their first 300 characters with the ellipsis marker appended.  Items
with no qualifying paragraph keep the empty default. -/
def pickSummary : List (List Char) → List Char
  | [] => []
  | p :: ps =>
      let t := stripChars p
      if 20 < t.length && !hasDate t && !hasRelTime t && !hasSubstr boilerLit t then
        if 300 < t.length then t.take 300 ++ ellipsisLit else t
      else pickSummary ps

/-- One listing item, carrying the raw texts the parser reads: the first
h3 a element text when that element exists, the h3 element text when it
exists, the texts of the p elements in order, the href attribute of the
first h3 a element, the text of the source span when present, and the
text of the timestamp script element when present. -/
structure NewsItem where
  h3a : Option (List Char)
  h3 : Option (List Char)
  ps : List (List Char)
  href : Option (List Char)
  sourceSpan : Option (List Char)
  timeScript : Option (List Char)
deriving Repr, DecidableEq

/-- Title extraction: text of h3 a when that element exists, else text of
h3 when it exists, else empty.  The fallback fires only when the h3 a
element is missing, not when its text strips to empty. -/
def titleOf (it : NewsItem) : List Char :=
  match it.h3a with
  | some t => stripChars t
  | none =>
      match it.h3 with
      | some t => stripChars t
      | none => []

/-- The listing-site base prepended to relative hrefs. -/
def sogouBase : List Char := "https://weixin.sogou.com".toList

/-- Link extraction: empty when the element or the attribute is missing,
the absolute URL otherwise, with the base prepended to relative hrefs. -/
def sogouUrlOf (it : NewsItem) : List Char :=
  match it.href with
  | some h =>
      match h with
      | [] => []
      | c :: rest => if c = '/' then sogouBase ++ c :: rest else c :: rest
  | none => []

/-- Source extraction: the stripped span text unless it is empty or
equals the boilerplate string. -/
def sourceOf (it : NewsItem) : List Char :=
  match it.sourceSpan with
  | some s =>
      let t := stripChars s
      if t ≠ [] && t ≠ boilerLit then t else []
  | none => []

/-- The literal opening of a timeConvert call: the name, an opening
parenthesis and a single quote. -/
def timeConvLit : List Char := "timeConvert(".toList ++ [squote]

/-- Attempt to match a timeConvert call at the head of the list: the
literal opening, at least one digit, then a single quote and a closing
parenthesis.  The digit class excludes the quote, so the digit run is
forced to be maximal. -/
def matchTimeAt (l : List Char) : Option Nat :=
  if startsWithL l timeConvLit then
    let p := digitsSplit (l.drop timeConvLit.length)
    if p.1 ≠ [] ∧ startsWithL p.2 ([squote] ++ [')']) then
      some (digitsToNat p.1)
    else none
  else none

/-- Model of re.search with the timeConvert pattern: leftmost match. -/
def findTimeConvert : List Char → Option Nat
  | [] => none
  | c :: rest =>
      match matchTimeAt (c :: rest) with
      | some n => some n
      | none => findTimeConvert rest

/-- Publish-time extraction: the timestamp of the script snippet rendered
through the local time formatter `fmt` (which models
datetime.fromtimestamp followed by strftime), empty when the script or
the pattern is missing. -/
def pubTimeOf (fmt : Nat → List Char) (it : NewsItem) : List Char :=
  match it.timeScript with
  | some sc =>
      match findTimeConvert sc with
      | some ts => fmt ts
      | none => []
  | none => []

/-- Model of the WeChatArticle dataclass of the source. -/
structure WeChatArticle where
  title : List Char := []
  summary : List Char := []
  source : List Char := []
  publish_time : List Char := []
  address : List Char := []
  sogou_url : List Char := []
  real_url : List Char := []
  crawl_time : List Char := []
  success : Bool := false
  content : List Char := []
  content_fetched : Bool := false
deriving Repr, DecidableEq

/-- The record the parser builds from one listing item (`now` is the
crawl timestamp taken at parse time).  The Python loop fills the fields
of a fresh dataclass in place; the net record is this one. -/
def buildArticle (fmt : Nat → List Char) (now : List Char) (it : NewsItem) : WeChatArticle :=
  { title := titleOf it
    summary := pickSummary it.ps
    source := sourceOf it
    publish_time := pubTimeOf fmt it
    sogou_url := sogouUrlOf it
    crawl_time := now }

/-- Model of `WeChatCrawler._parse_search_results`: iterate the listing
items in document order, skipping every item whose title is empty after
trimming. -/
def parse_search_results (fmt : Nat → List Char) (now : List Char) :
    List NewsItem → List WeChatArticle
  | [] => []
  | it :: rest =>
      if titleOf it = [] then parse_search_results fmt now rest
      else buildArticle fmt now it :: parse_search_results fmt now rest

/-! ## BatchRunner: get_real_urls_batch and fetch_contents_batch

Network requests are modelled by oracles.  `resolveGet u` is the body of
a successful GET of the redirect page at `u` and `none` a request
failure (the code catches `requests.RequestException` and returns None).
`fetchGet u` is the (content, address) pair produced by a successful GET
of the article page followed by extract_article_text, and `none` any
caught failure of that fetch (the code catches both the request error
and the extraction error and returns success False).  ThreadPoolExecutor
map returns results in input order regardless of worker count, so a
batch is an order-preserving map; the worker-count argument is kept for
fidelity with the source signature but is semantically inert. -/

/-- Model of `WeChatCrawler.get_real_wechat_url`: fetch the redirect page
and extract the real URL, with any request failure surfaced as none. -/
def get_real_wechat_url (resolveGet : List Char → Option (List Char))
    (u : List Char) : Option (List Char) :=
  match resolveGet u with
  | some body => extract_real_url body
  | none => none

/-- The per-article worker of get_real_urls_batch: articles with a
listing link get their real URL resolved and the success flag set;
articles without a link pass through unchanged. -/
def process_article (resolveGet : List Char → Option (List Char))
    (a : WeChatArticle) : WeChatArticle :=
  if a.sogou_url ≠ [] then
    match get_real_wechat_url resolveGet a.sogou_url with
    | some r => { a with real_url := r, success := true }
    | none => { a with success := false }
  else a

/-- Model of `WeChatCrawler.get_real_urls_batch`. -/
def get_real_urls_batch (resolveGet : List Char → Option (List Char))
    (articles : List WeChatArticle) (maxWorkers : Nat) : List WeChatArticle :=
  let _ := maxWorkers
  articles.map (process_article resolveGet)

/-- Model of `WeChatCrawler.fetch_article_content`: content text, address
text and the success flag. -/
def fetch_article_content (fetchGet : List Char → Option (List Char × List Char))
    (u : List Char) : List Char × List Char × Bool :=
  match fetchGet u with
  | some r => (r.1, r.2, true)
  | none => ([], [], false)

/-- The per-article worker of fetch_contents_batch.  The boolean of the
result records whether the article was handed to
save_article_to_storage, which the code does exactly when
content_fetched is set. -/
def fetch_content_worker (fetchGet : List Char → Option (List Char × List Char))
    (a : WeChatArticle) : WeChatArticle × Bool :=
  if a.real_url ≠ [] && a.success then
    let r := fetch_article_content fetchGet a.real_url
    let a2 := { a with content := r.1, address := r.2.1, content_fetched := r.2.2 }
    (a2, a2.content_fetched)
  else (a, false)

/-- Model of `WeChatCrawler.fetch_contents_batch`, per item.  The code
filters the valid articles (success set and a real URL present), maps
the worker over them, and merges the processed articles back into the
original list by object identity, so each article keeps its original
position; that identity merge is value-level equivalent to mapping this
guarded per-item function over the whole list.  The boolean records
whether the article was handed to storage. -/
def fetch_item (fetchGet : List Char → Option (List Char × List Char))
    (a : WeChatArticle) : WeChatArticle × Bool :=
  if a.success && a.real_url ≠ [] then fetch_content_worker fetchGet a
  else (a, false)

/-- The full fetch batch: processed articles in input order, and the
articles handed to storage. -/
def fetch_contents_batch (fetchGet : List Char → Option (List Char × List Char))
    (articles : List WeChatArticle) (maxWorkers : Nat) :
    List WeChatArticle × List WeChatArticle :=
  let _ := maxWorkers
  let processed := articles.map (fetch_item fetchGet)
  (processed.map Prod.fst, (processed.filter (fun x => x.2)).map Prod.fst)

/-! ## ArticleStore: SQLiteArticleStorage

The articles table has a UNIQUE object_key column and rows are written
with INSERT OR IGNORE, so the database is abstracted to the list of
object keys present.  The insert either appends a fresh key and reports
one affected row, or ignores a duplicate and reports zero.  The md5
hexdigest truncated to eight characters is abstracted by a simple
deterministic eight-hex-character digest; no claim depends on its
values, only on its determinism and its fixed length. -/

/-- Hex digit characters. -/
def hexChar (n : Nat) : Char :=
  if n < 10 then Char.ofNat (48 + n) else Char.ofNat (87 + (n % 16))

/-- Deterministic eight-character stand-in for
hashlib.md5(x.encode()).hexdigest() truncated to eight characters. -/
def digest8 (s : List Char) : List Char :=
  let n := s.foldl (fun h c => (h * 131 + c.toNat) % 4294967296) 7
  [hexChar (n / 16 ^ 7 % 16), hexChar (n / 16 ^ 6 % 16), hexChar (n / 16 ^ 5 % 16),
   hexChar (n / 16 ^ 4 % 16), hexChar (n / 16 ^ 3 % 16), hexChar (n / 16 ^ 2 % 16),
   hexChar (n / 16 % 16), hexChar (n % 16)]

/-- The record dictionary handed to SQLiteArticleStorage.save_article by
the crawler (every key is always supplied, possibly with an empty
value). -/
structure StoreRecord where
  title : List Char := []
  summary : List Char := []
  source : List Char := []
  publish_time : List Char := []
  address : List Char := []
  real_url : List Char := []
  content : List Char := []
  keyword : List Char := []
deriving Repr, DecidableEq

/-- Model of `SQLiteArticleStorage._generate_object_key`.  `nowDate` is
the date of the call formatted as ten characters year dash month dash
day.  The hash input is title concatenated with publish_time; the date
prefix is the first ten characters of publish_time when it has at least
ten characters, and the date of the call otherwise. -/
def generate_object_key (a : StoreRecord) (nowDate : List Char) : List Char :=
  let h := digest8 (a.title ++ a.publish_time)
  let dateStr := if 10 ≤ a.publish_time.length then a.publish_time.take 10 else nowDate
  dateStr ++ '/' :: h

/-- Model of `SQLiteArticleStorage.save_article` over the abstract key
set.  `ioOk` is false when the underlying engine raises (genuine I/O
failure); the code catches every exception and returns False, so the
model is a total function and no call raises.  A duplicate key is
ignored by the insert, which reports zero affected rows, and the method
returns false. -/
def save_article (db : List (List Char)) (a : StoreRecord) (nowDate : List Char)
    (ioOk : Bool) : Bool × List (List Char) :=
  if ioOk then
    let k := generate_object_key a nowDate
    if k ∈ db then (false, db) else (true, db ++ [k])
  else (false, db)

/-! ## SessionManager: WeChatCrawler.playwright_login and login

The browser surface is modelled by an observation trace: at every poll
tick the code reads the cookie set of the page context and may probe
whether the login control is still visible.  Every handshake step before
the poll loop (navigation, keyword search, clicking the login control,
looking for the code image) can raise; all of that is inside the
enclosing try and a failure returns false, abstracted by `preOk`.  On a
successful poll the code captures the cookies and persists them through
save_login_cookies, which sets the logged-in flag only when the pickle
dump succeeds (`saveOk`), and the method still returns true. -/

/-- Pipeline environment. -/
structure PipeEnv where
  handshake : Nat → Bool
  searchPage : List Char → Nat → Nat → Option (List NewsItem)
  resolveGet : List Char → Option (List Char)
  fetchGet : List Char → Option (List Char × List Char)
  accounts : List (List Char)
  fmtTime : Nat → List Char
  now : List Char

/-- Pipeline state. -/
structure PipeState where
  is_logged_in : Bool
  logins : Nat
  searches : Nat
deriving Repr, DecidableEq

/-- Oracle-level model of `WeChatCrawler.login` inside the pipeline: the
whole handshake (including cookie persistence) is abstracted to the
boolean outcome of its n-th invocation; a failed handshake leaves the
logged-in flag as it was. -/
def loginO (env : PipeEnv) (st : PipeState) (force : Bool) : Bool × PipeState :=
  if st.is_logged_in && !force then (true, st)
  else
    let ok := env.handshake st.logins
    (ok, { st with logins := st.logins + 1, is_logged_in := ok || st.is_logged_in })

/-- The article list produced by the n-th search request: a caught
request failure gives the empty list, a fetched listing page is run
through the search-result parser. -/
def searchResult (env : PipeEnv) (q : List Char) (page n : Nat) : List WeChatArticle :=
  match env.searchPage q page n with
  | none => []
  | some items => parse_search_results env.fmtTime env.now items

/-- Model of `WeChatCrawler.search_articles`: returns the parsed articles
of the current search invocation and bumps the counter. -/
def search_articles (env : PipeEnv) (st : PipeState) (q : List Char) (page : Nat) :
    List WeChatArticle × PipeState :=
  (searchResult env q page st.searches, { st with searches := st.searches + 1 })

/-- Outcome of one crawl_and_extract call: either the structured result
dictionary with its success flag, message and data, or termination of
the host process with an exit code (sys.exit raises SystemExit, which
the enclosing except Exception clause does not catch). -/
inductive CrawlOutcome where
  | res (success : Bool) (message : List Char) (data : List WeChatArticle)
  | exited (code : Nat)
deriving Repr, DecidableEq

/-- Message of the failed initial login. -/
def loginFailMsg : List Char := "登录失败，无法继续爬取".toList

/-- Message of the failed re-login. -/
def reloginFailMsg : List Char := "重新登录失败".toList

/-- The success message of crawl_and_extract. -/
def successMsg (total fetched : Nat) (fetchContent : Bool) : List Char :=
  "成功爬取 ".toList ++ natToChars total ++ " 篇文章".toList ++
    (if fetchContent then
      "，获取 ".toList ++ natToChars fetched ++ " 篇完整内容".toList
    else [])

/-- The resolve and fetch stages of crawl_and_extract followed by the
statistics and the success result. -/
def finishStage (env : PipeEnv) (st : PipeState) (arts : List WeChatArticle)
    (getRealUrls fetchContent : Bool) : CrawlOutcome × PipeState :=
  let arts1 := if getRealUrls then get_real_urls_batch env.resolveGet arts 3 else arts
  let arts2 :=
    if fetchContent && getRealUrls then (fetch_contents_batch env.fetchGet arts1 2).1
    else arts1
  let fetched := arts2.countP (fun a => a.content_fetched)
  (.res true (successMsg arts2.length fetched fetchContent) arts2, st)

/-- Model of `WeChatCrawler.crawl_and_extract`.  When not logged in, a
failed login aborts with a failure result.  A first search with zero
records clears the session (cookie file deleted, cookie jars cleared,
flag lowered) and forces a re-login; on re-login failure the call aborts
with a failure result, on success the same page is searched once more
and a second empty result terminates the process through sys.exit(0).
All other paths run the optional resolve and fetch stages and return a
success result.  The enclosing except Exception clause turns any other
uncaught error into a failure result; every fallible step of the model
is already total, and SystemExit is not an Exception, so the clause is
unreachable here. -/
def crawl_and_extract (env : PipeEnv) (st0 : PipeState) (q : List Char) (page : Nat)
    (getRealUrls fetchContent : Bool) : CrawlOutcome × PipeState :=
  let g0 := loginO env st0 false
  if g0.1 then
    let s1 := search_articles env g0.2 q page
    if s1.1.isEmpty then
      let st3 := { s1.2 with is_logged_in := false }
      let g1 := loginO env st3 true
      if g1.1 then
        let s2 := search_articles env g1.2 q page
        if s2.1.isEmpty then (.exited 0, s2.2)
        else finishStage env s2.2 s2.1 getRealUrls fetchContent
      else (.res false reloginFailMsg [], g1.2)
    else finishStage env s1.2 s1.1 getRealUrls fetchContent
  else (.res false loginFailMsg [], g0.2)

/-- One entry of the aggregated result list of
crawl_all_configured_accounts. -/
structure AccountResult where
  account : List Char
  success : Bool
  message : List Char
deriving Repr, DecidableEq

/-- Outcome of crawl_all_configured_accounts. -/
inductive AllOutcome where
  | res (success : Bool) (message : List Char) (data : List AccountResult)
  | exited (code : Nat)
deriving Repr, DecidableEq

/-- The page loop of crawl_all_configured_accounts for one account: run
crawl_and_extract on every page of the list, collect per-page results,
and stop the whole run when a page terminates the process (the except
Exception clause of the loop cannot fire in the model, because
crawl_and_extract already catches its own exceptions and SystemExit is
not an Exception).  The first component reports whether the process
exited. -/
def crawlPages (env : PipeEnv) (account : List Char) (getRealUrls fetchContent : Bool) :
    List Nat → PipeState → Bool × PipeState × List AccountResult
  | [], st => (false, st, [])
  | p :: ps, st =>
      match crawl_and_extract env st account p getRealUrls fetchContent with
      | (.exited _, st2) => (true, st2, [])
      | (.res s m _, st2) =>
          let r := crawlPages env account getRealUrls fetchContent ps st2
          (r.1, r.2.1, ⟨account, s, m⟩ :: r.2.2)

/-- Message of the empty account configuration. -/
def noAccountsMsg : List Char := "没有配置任何公众号".toList

/-- Completion message of crawl_all_configured_accounts. -/
def allDoneMsg (n : Nat) : List Char :=
  "完成爬取 ".toList ++ natToChars n ++ " 个公众号".toList

/-- Model of `WeChatCrawler.crawl_all_configured_accounts`.  The return
statement of the source sits inside the account loop, at the same
indentation as the page loop, so the first account is crawled over the
page range 67 to the bound (exclusive, defaulting to 3000) and the
function then returns without visiting the remaining accounts. -/
def crawl_all_configured_accounts (env : PipeEnv) (st0 : PipeState)
    (getRealUrls fetchContent : Bool) (page : Option Nat) : AllOutcome × PipeState :=
  let g0 := loginO env st0 false
  if g0.1 then
    match env.accounts with
    | [] => (.res false noAccountsMsg [], g0.2)
    | a :: _ =>
        let pageEnd := page.getD 3000
        let r := crawlPages env a getRealUrls fetchContent
          (List.range' 67 (pageEnd - 67)) g0.2
        if r.1 then (.exited 0, r.2.1)
        else
          (.res (r.2.2.any (fun e => e.success)) (allDoneMsg env.accounts.length) r.2.2,
            r.2.1)
  else (.res false loginFailMsg [], g0.2)

/-! ## Claim C2: UrlResolver.resolve / extract_real_url -/

/-- Helper for concrete redirect bodies: one fragment statement. -/
def mkFrag (s : List Char) : List Char := urlAddLit ++ s ++ [squote, ';']

/-- The Scenario B redirect body. -/
def bodyB : List Char :=
  "...url = ".toList ++ [squote, squote, ';'] ++ " ".toList ++
    mkFrag "https://example.com/s?".toList ++ " ".toList ++
    mkFrag "id=42".toList ++ "...".toList

/-- A body with no fragment statement whose fallback match carries
trailing whitespace. -/
def bodyTrail : List Char := "x ".toList ++ urlLit ++ "a=1 ".toList

/-- C2 counterexample: on a fragment-free body whose canonical-URL match
ends in whitespace, extract_real_url returns the match stripped of that
whitespace, not the literal match itself, refuting the claim that the
literal match is returned. -/
theorem C2_counterexample :
    findFragments bodyTrail = [] ∧
    findFirstUrl bodyTrail = some (urlLit ++ "a=1 ".toList) ∧
    extract_real_url bodyTrail = some (urlLit ++ "a=1".toList) ∧
    (urlLit ++ "a=1".toList : List Char) ≠ urlLit ++ "a=1 ".toList := by
  refine ⟨by decide, by decide, by decide, by decide⟩

/-- C2 (amended): extract_real_url is a pure function of its argument;
when the body holds at least one fragment occurrence it returns the
concatenation of all fragments in order of appearance; when it holds no
fragment but the canonical article pattern matches, it returns the
leftmost such match with surrounding whitespace stripped; otherwise it
returns none. -/
theorem C2_amended :
    (∀ s : List Char, findFragments s ≠ [] →
        extract_real_url s = some (findFragments s).flatten) ∧
    (∀ s m : List Char, findFragments s = [] → findFirstUrl s = some m →
        extract_real_url s = some (stripChars m)) ∧
    (∀ s : List Char, findFragments s = [] → findFirstUrl s = none →
        extract_real_url s = none) := by
  refine ⟨?_, ?_, ?_⟩
  · intro s h
    simp [extract_real_url, List.isEmpty_iff, h]
  · intro s m h hm
    simp [extract_real_url, List.isEmpty_iff, h, hm]
  · intro s h hm
    simp [extract_real_url, List.isEmpty_iff, h, hm]

/-- C2 witness: the amended theorem applied to the Scenario B body, to a
fallback-only body and to a body with neither pattern. -/
theorem C2_amended_witness :
    extract_real_url bodyB = some "https://example.com/s?id=42".toList ∧
    extract_real_url bodyTrail = some (urlLit ++ "a=1".toList) ∧
    extract_real_url "nothing here".toList = none := by
  refine ⟨?_, ?_, ?_⟩
  · have h := C2_amended.1 bodyB (by decide)
    rw [h]; decide
  · have h := C2_amended.2.1 bodyTrail (urlLit ++ "a=1 ".toList) (by decide) (by decide)
    rw [h]; decide
  · exact C2_amended.2.2 "nothing here".toList (by decide) (by decide)

/-! ## Shared parser lemmas -/

/-- The parser loop equals filtering out the items whose trimmed title is
empty and building a record from each remaining item. -/
theorem parse_eq_filter_map (fmt : Nat → List Char) (now : List Char)
    (items : List NewsItem) :
    parse_search_results fmt now items =
      (items.filter (fun it => !(titleOf it).isEmpty)).map (buildArticle fmt now) := by
  induction items with
  | nil => rfl
  | cons it rest ih =>
      by_cases h : titleOf it = []
      · simp [parse_search_results, h, ih, List.filter_cons]
      · simp [parse_search_results, h, ih, List.filter_cons, List.isEmpty_iff]

/-- Length and truncation shape of the selected summary. -/
theorem pickSummary_spec (ps : List (List Char)) :
    (pickSummary ps).length ≤ 303 ∧
      (300 < (pickSummary ps).length →
        ∃ t : List Char, 300 < t.length ∧ pickSummary ps = t.take 300 ++ ellipsisLit) := by
  induction ps with
  | nil => simp [pickSummary]
  | cons p rest ih =>
      simp only [pickSummary]
      split
      · split
        · next ht =>
            have hlen : (List.take 300 (stripChars p)).length = 300 := by
              rw [List.length_take]
              omega
            have he : ellipsisLit.length = 3 := rfl
            constructor
            · simp only [List.length_append, hlen, he]
              omega
            · intro _
              exact ⟨stripChars p, ht, rfl⟩
        · next ht =>
            constructor
            · omega
            · intro hc
              omega
      · exact ih

/-! ## Claim C8: summary length bound -/

/-- A paragraph of 301 identical letters, passing every summary filter. -/
def longPara : List Char := List.replicate 301 'a'

/-- A listing item whose only paragraph is longPara. -/
def itemLong : NewsItem := ⟨some "t".toList, none, [longPara], none, none, none⟩

/-- C8 counterexample: a parsed item whose selected paragraph has 301
characters yields a summary of 303 characters (300 kept characters plus
the three-character ellipsis), refuting the at-most-300 bound. -/
theorem C8_counterexample :
    ¬ (∀ r ∈ parse_search_results (fun _ => []) [] [itemLong],
        r.summary.length ≤ 300) := by decide

/-- C8 (amended): every produced summary is at most 303 characters long,
and a summary longer than 300 characters is exactly the first 300
characters of the selected paragraph with the three-character ellipsis
marker appended. -/
theorem C8_amended : ∀ (fmt : Nat → List Char) (now : List Char)
    (items : List NewsItem) (r : WeChatArticle),
    r ∈ parse_search_results fmt now items →
    r.summary.length ≤ 303 ∧
      (300 < r.summary.length →
        ∃ t : List Char, 300 < t.length ∧ r.summary = t.take 300 ++ ellipsisLit) := by
  intro fmt now items r hr
  rw [parse_eq_filter_map] at hr
  obtain ⟨it, _, rfl⟩ := List.mem_map.1 hr
  exact pickSummary_spec it.ps

/-- C8 witness: the amended theorem at the 301-character item. -/
theorem C8_amended_witness :
    (buildArticle (fun _ => []) [] itemLong).summary.length ≤ 303 ∧
    ∃ t : List Char, 300 < t.length ∧
      (buildArticle (fun _ => []) [] itemLong).summary = t.take 300 ++ ellipsisLit :=
  ⟨(C8_amended (fun _ => []) [] [itemLong] _ (by decide)).1,
   (C8_amended (fun _ => []) [] [itemLong] _ (by decide)).2 (by decide)⟩

/-! ## Claim C9: empty-title items are excluded -/

/-- A listing item with a title that survives trimming. -/
def itemT : NewsItem := ⟨some "  Test Article  ".toList, none, [], none, none, none⟩

/-- A listing item whose heading-link text strips to empty (the h3
fallback is not consulted, because the h3 a element exists). -/
def itemNoTitle : NewsItem := ⟨some "   ".toList, some "x".toList, [], none, none, none⟩

/-- C9: the parser output is exactly the records of the items with a
non-empty trimmed title, so its length never exceeds the item count and
every returned record has a non-empty title. -/
theorem C9_theorem : ∀ (fmt : Nat → List Char) (now : List Char) (items : List NewsItem),
    parse_search_results fmt now items =
      (items.filter (fun it => !(titleOf it).isEmpty)).map (buildArticle fmt now) ∧
    (parse_search_results fmt now items).length ≤ items.length ∧
    ∀ r ∈ parse_search_results fmt now items, r.title ≠ [] := by
  intro fmt now items
  refine ⟨parse_eq_filter_map fmt now items, ?_, ?_⟩
  · rw [parse_eq_filter_map]
    simpa using List.length_filter_le _ items
  · intro r hr
    rw [parse_eq_filter_map] at hr
    obtain ⟨it, hit, rfl⟩ := List.mem_map.1 hr
    have h2 := (List.mem_filter.1 hit).2
    simpa [buildArticle, List.isEmpty_iff] using h2

/-- C9 witness: a two-item listing where one title strips to empty
produces one record, and the surviving record keeps its title. -/
theorem C9_theorem_witness :
    (parse_search_results (fun _ => []) [] [itemT, itemNoTitle]).length ≤ 2 ∧
    (buildArticle (fun _ => []) [] itemT).title ≠ [] :=
  ⟨(C9_theorem (fun _ => []) [] [itemT, itemNoTitle]).2.1,
   (C9_theorem (fun _ => []) [] [itemT, itemNoTitle]).2.2 _ (by decide)⟩

/-! ## Claim C5: save idempotence on the fingerprint -/

/-- A record whose publish time is empty (as produced for listing items
without a timestamp script). -/
def recNoTime : StoreRecord := { title := "t".toList }

/-- A record with a full nineteen-character publish timestamp. -/
def recTimed : StoreRecord :=
  { title := "t".toList, publish_time := "2024-01-02 03:04:05".toList }

/-- C5 counterexample: two saves of the same record (same title, same
publish time) performed on different dates both return true when the
publish time is shorter than ten characters, because the derived key
takes its date prefix from the date of the call; the claim requires the
second call to return false. -/
theorem C5_counterexample :
    (save_article [] recNoTime "2026-10-11".toList true).1 = true ∧
    (save_article (save_article [] recNoTime "2026-10-11".toList true).2
        recNoTime "2026-10-12".toList true).1 = true := by
  refine ⟨by decide, by decide⟩

/-- C5 (amended): for two saves with the same title and the same publish
time, provided the key derivation uses the same date prefix for both
calls (always the case when the publish time has at least ten
characters, and otherwise exactly when both calls happen on the same
date), a first save that succeeds makes the second return false.  The
model is a total function: no duplicate, and indeed no call at all,
raises to the caller. -/
theorem C5_amended : ∀ (db : List (List Char)) (a1 a2 : StoreRecord)
    (d1 d2 : List Char) (io2 : Bool),
    a1.title = a2.title → a1.publish_time = a2.publish_time →
    (10 ≤ a1.publish_time.length ∨ d1 = d2) →
    (save_article db a1 d1 true).1 = true →
    (save_article (save_article db a1 d1 true).2 a2 d2 io2).1 = false := by
  intro db a1 a2 d1 d2 io2 ht hp hdate h1
  have hkey : generate_object_key a2 d2 = generate_object_key a1 d1 := by
    unfold generate_object_key
    rw [← ht, ← hp]
    rcases hdate with h10 | hd
    · simp [h10]
    · rw [hd]
  unfold save_article at h1 ⊢
  simp only [if_pos rfl] at h1 ⊢
  by_cases hmem : generate_object_key a1 d1 ∈ db
  · simp [hmem] at h1
  · simp only [hmem, if_neg, if_false] at h1 ⊢
    cases io2 with
    | false => simp
    | true =>
        simp only [if_true]
        rw [hkey]
        simp [hmem]

/-- C5 witness: the amended theorem at a record with a full timestamp,
saved twice on different call dates. -/
theorem C5_amended_witness :
    (save_article (save_article [] recTimed "2026-10-11".toList true).2
        recTimed "2026-10-12".toList true).1 = false :=
  C5_amended [] recTimed recTimed "2026-10-11".toList "2026-10-12".toList true
    rfl rfl (Or.inl (by decide)) (by decide)

/-! ## Claim C10: the dedup identity depends on the call date for short
publish times -/

/-- C10: when the publish time has fewer than ten characters, the date
prefix of the derived key is the date of the save call, so saving the
identical record on two different dates derives two different keys and
both saves insert a row. -/
theorem C10_theorem : ∀ (a : StoreRecord) (d1 d2 : List Char),
    a.publish_time.length < 10 →
    d1.length = 10 → d2.length = 10 → d1 ≠ d2 →
    generate_object_key a d1 = d1 ++ '/' :: digest8 (a.title ++ a.publish_time) ∧
    generate_object_key a d1 ≠ generate_object_key a d2 ∧
    (save_article [] a d1 true).1 = true ∧
    (save_article (save_article [] a d1 true).2 a d2 true).1 = true := by
  intro a d1 d2 hshort h1 h2 hne
  have hk : ∀ d : List Char,
      generate_object_key a d = d ++ '/' :: digest8 (a.title ++ a.publish_time) := by
    intro d
    unfold generate_object_key
    have : ¬ 10 ≤ a.publish_time.length := by omega
    simp [this]
  have hkey : generate_object_key a d1 ≠ generate_object_key a d2 := by
    rw [hk d1, hk d2]
    intro hcontra
    exact hne (List.append_inj hcontra (h1.trans h2.symm)).1
  refine ⟨hk d1, hkey, ?_, ?_⟩
  · simp [save_article]
  · simp only [save_article, if_pos rfl, List.not_mem_nil, if_neg, if_false,
      List.nil_append]
    simp [List.mem_singleton, hkey.symm]

/-- C10 witness: the theorem at a record with an empty publish time saved
on two consecutive dates. -/
theorem C10_theorem_witness :
    generate_object_key recNoTime "2026-10-11".toList ≠
      generate_object_key recNoTime "2026-10-12".toList ∧
    (save_article (save_article [] recNoTime "2026-10-11".toList true).2
        recNoTime "2026-10-12".toList true).1 = true :=
  ⟨(C10_theorem recNoTime "2026-10-11".toList "2026-10-12".toList
      (by decide) (by decide) (by decide) (by decide)).2.1,
   (C10_theorem recNoTime "2026-10-11".toList "2026-10-12".toList
      (by decide) (by decide) (by decide) (by decide)).2.2.2⟩

/-! ## Shared batch-worker lemmas -/

/-- The resolve worker never touches the content_fetched flag. -/
theorem process_article_cf (ro : List Char → Option (List Char)) (a : WeChatArticle) :
    (process_article ro a).content_fetched = a.content_fetched := by
  unfold process_article
  split
  · rcases get_real_wechat_url ro a.sogou_url with _ | r <;> rfl
  · rfl

/-- The fetch worker never touches the success flag. -/
theorem fetch_item_success (fo : List Char → Option (List Char × List Char))
    (a : WeChatArticle) : ((fetch_item fo a).1).success = a.success := by
  unfold fetch_item fetch_content_worker
  split
  · split <;> rfl
  · rfl

/-- The fetch worker preserves the content-implies-success invariant. -/
theorem fetch_item_inv (fo : List Char → Option (List Char × List Char))
    (a : WeChatArticle) (ha : a.content_fetched = true → a.success = true) :
    ((fetch_item fo a).1).content_fetched = true → ((fetch_item fo a).1).success = true := by
  unfold fetch_item fetch_content_worker
  split
  · next hc =>
      have hs : a.success = true := by
        cases h : a.success
        · rw [h] at hc
          simp at hc
        · rfl
      split
      · intro _
        simpa using hs
      · intro h
        exact ha h
  · exact ha

/-- An article handed to storage by the fetch worker left the worker with
both flags set. -/
theorem fetch_item_saved (fo : List Char → Option (List Char × List Char))
    (a : WeChatArticle) (h : (fetch_item fo a).2 = true) :
    ((fetch_item fo a).1).content_fetched = true ∧
    ((fetch_item fo a).1).success = true := by
  by_cases hs : a.success = true
  · by_cases hu : a.real_url = []
    · simp [fetch_item, hu] at h
    · simp [fetch_item, fetch_content_worker, hs, hu] at h ⊢
      exact h
  · simp [fetch_item, hs] at h

/-! ## Claim C4: content_fetched implies resolved; only fetched records
are persisted -/

/-- C4: along the pipeline search-parse, resolve batch, fetch batch,
every record satisfies content_fetched implies success at every stage
(after parsing both flags are still false, after resolving
content_fetched is still false), and the records handed to
save_article_to_storage are exactly records with content_fetched set,
which also carry success; unresolved records are never persisted. -/
theorem C4_theorem : ∀ (fmt : Nat → List Char) (now : List Char) (items : List NewsItem)
    (ro : List Char → Option (List Char))
    (fo : List Char → Option (List Char × List Char)) (mw1 mw2 : Nat),
    (∀ r ∈ parse_search_results fmt now items,
        r.content_fetched = false ∧ r.success = false) ∧
    (∀ r ∈ get_real_urls_batch ro (parse_search_results fmt now items) mw1,
        r.content_fetched = false) ∧
    (∀ r ∈ (fetch_contents_batch fo
        (get_real_urls_batch ro (parse_search_results fmt now items) mw1) mw2).1,
        r.content_fetched = true → r.success = true) ∧
    (∀ r ∈ (fetch_contents_batch fo
        (get_real_urls_batch ro (parse_search_results fmt now items) mw1) mw2).2,
        r.content_fetched = true ∧ r.success = true) := by
  intro fmt now items ro fo mw1 mw2
  have hparse : ∀ r ∈ parse_search_results fmt now items,
      r.content_fetched = false ∧ r.success = false := by
    intro r hr
    rw [parse_eq_filter_map] at hr
    obtain ⟨it, _, rfl⟩ := List.mem_map.1 hr
    exact ⟨rfl, rfl⟩
  have hresolve : ∀ r ∈ get_real_urls_batch ro (parse_search_results fmt now items) mw1,
      r.content_fetched = false := by
    intro r hr
    unfold get_real_urls_batch at hr
    obtain ⟨a, ha, rfl⟩ := List.mem_map.1 hr
    rw [process_article_cf]
    exact (hparse a ha).1
  refine ⟨hparse, hresolve, ?_, ?_⟩
  · intro r hr
    simp only [fetch_contents_batch, List.map_map] at hr
    obtain ⟨a, ha, rfl⟩ := List.mem_map.1 hr
    exact fetch_item_inv fo a (fun hc => absurd hc (by simp [hresolve a ha]))
  · intro r hr
    simp only [fetch_contents_batch] at hr
    obtain ⟨pair, hpair, rfl⟩ := List.mem_map.1 hr
    have h2 := (List.mem_filter.1 hpair).2
    obtain ⟨a, _, rfl⟩ := List.mem_map.1 (List.mem_filter.1 hpair).1
    exact fetch_item_saved fo a h2

/-- A pipeline item for the C4 witness: a titled item with a listing
link. -/
def itemC4 : NewsItem := ⟨some "t".toList, none, [], some "http://x".toList, none, none⟩

/-- The resolve oracle of the C4 and C6 witnesses: every redirect page
carries one fragment statement building the URL u. -/
def roW : List Char → Option (List Char) := fun _ => some (mkFrag "u".toList)

/-- The fetch oracle of the C4 witness: every article page yields body
text c. -/
def foW : List Char → Option (List Char × List Char) := fun _ => some ("c".toList, [])

/-- The record reaching storage in the C4 witness pipeline. -/
def artC4 : WeChatArticle :=
  { title := "t".toList, sogou_url := "http://x".toList, real_url := "u".toList,
    success := true, content := "c".toList, content_fetched := true }

/-- C4 witness: the theorem applied to a one-item pipeline whose record
is resolved, fetched and handed to storage with both flags set. -/
theorem C4_theorem_witness :
    (artC4.content_fetched = true ∧ artC4.success = true) ∧
    (buildArticle (fun _ => []) [] itemC4).content_fetched = false :=
  ⟨(C4_theorem (fun _ => []) [] [itemC4] roW foW 3 2).2.2.2 artC4 (by decide),
   ((C4_theorem (fun _ => []) [] [itemC4] roW foW 3 2).1 _ (by decide)).1⟩

/-! ## Claim C6: batch shape, index correspondence and per-item
isolation -/

/-- C6: both batch runners return exactly one output per input in input
order, each output position is a function of the input at the same
position alone (so a failure inside one item cannot perturb a sibling),
and an item whose own network step fails comes back with its failure
flag unset: success false for the resolve batch, content_fetched false
for the fetch batch. -/
theorem C6_theorem :
    (∀ (ro : List Char → Option (List Char)) (arts : List WeChatArticle) (mw : Nat),
        (get_real_urls_batch ro arts mw).length = arts.length) ∧
    (∀ (ro : List Char → Option (List Char)) (arts : List WeChatArticle)
        (mw i : Nat) (d : WeChatArticle), i < arts.length →
        (get_real_urls_batch ro arts mw).getD i d = process_article ro (arts.getD i d)) ∧
    (∀ (fo : List Char → Option (List Char × List Char)) (arts : List WeChatArticle)
        (mw : Nat), ((fetch_contents_batch fo arts mw).1).length = arts.length) ∧
    (∀ (fo : List Char → Option (List Char × List Char)) (arts : List WeChatArticle)
        (mw i : Nat) (d : WeChatArticle), i < arts.length →
        ((fetch_contents_batch fo arts mw).1).getD i d =
          (fetch_item fo (arts.getD i d)).1) ∧
    (∀ (ro : List Char → Option (List Char)) (a : WeChatArticle),
        a.sogou_url ≠ [] → get_real_wechat_url ro a.sogou_url = none →
        (process_article ro a).success = false) ∧
    (∀ (fo : List Char → Option (List Char × List Char)) (a : WeChatArticle),
        a.success = true → a.real_url ≠ [] → fo a.real_url = none →
        ((fetch_item fo a).1).content_fetched = false) := by
  refine ⟨?_, ?_, ?_, ?_, ?_, ?_⟩
  · intro ro arts mw
    simp [get_real_urls_batch]
  · intro ro arts mw i d h
    unfold get_real_urls_batch
    rw [List.getD_eq_getElem?_getD, List.getD_eq_getElem?_getD,
      List.getElem?_map]
    rw [List.getElem?_eq_getElem h]
    simp
  · intro fo arts mw
    simp [fetch_contents_batch]
  · intro fo arts mw i d h
    simp only [fetch_contents_batch, List.map_map]
    rw [List.getD_eq_getElem?_getD, List.getD_eq_getElem?_getD,
      List.getElem?_map]
    rw [List.getElem?_eq_getElem h]
    simp
  · intro ro a hs hnone
    unfold process_article
    simp only [hs, if_pos, hnone]
    split <;> rfl
  · intro fo a hs hu hnone
    unfold fetch_item fetch_content_worker fetch_article_content
    simp [hs, hu, hnone]

/-- A resolved article for the C6 witness whose fetch will fail. -/
def artFail : WeChatArticle :=
  { title := "f".toList, sogou_url := "http://f".toList,
    real_url := "bad".toList, success := true }

/-- A fetch oracle that fails exactly on the URL of artFail. -/
def foFail : List Char → Option (List Char × List Char) := fun u =>
  if u = "bad".toList then none else some ("c".toList, [])

/-- C6 witness: the theorem at a three-article fetch batch in which the
middle item fails, and at a resolve worker whose request fails. -/
theorem C6_theorem_witness :
    ((fetch_contents_batch foFail [artC4, artFail, artC4] 2).1).length = 3 ∧
    ((fetch_contents_batch foFail [artC4, artFail, artC4] 2).1).getD 1 {} =
      (fetch_item foFail artFail).1 ∧
    ((fetch_item foFail artFail).1).content_fetched = false ∧
    (process_article (fun _ => none) artFail).success = false :=
  ⟨C6_theorem.2.2.1 foFail [artC4, artFail, artC4] 2,
   C6_theorem.2.2.2.1 foFail [artC4, artFail, artC4] 2 1 {} (by decide),
   C6_theorem.2.2.2.2.2 foFail artFail rfl (by decide) (by decide),
   C6_theorem.2.2.2.2.1 (fun _ => none) artFail (by decide) rfl⟩

/-! ## Claim C7: login handshake -/

/-- A minimal listing item with a title, for the driving-loop run. -/
def item3 : NewsItem := ⟨some "t".toList, none, [], none, none, none⟩

/-- A pipeline environment with two configured keywords in which every
search succeeds with one article. -/
def env3 : PipeEnv :=
  { handshake := fun _ => true
    searchPage := fun _ _ _ => some [item3]
    resolveGet := fun _ => none
    fetchGet := fun _ => none
    accounts := [['a'], ['b']]
    fmtTime := fun _ => []
    now := [] }

/-- C3 evaluated at the failing input: with the two configured keywords a
and b and the page bound 69, the driving loop crawls pages 67 and 68 of
keyword a only and then returns (the return statement of the source sits
inside the account loop), so crawl_and_extract is never called for
keyword b, while the completion message still counts both accounts. -/
theorem C3_code_bug_eval :
    (crawl_all_configured_accounts env3 ⟨true, 0, 0⟩ false false (some 69)).1 =
      AllOutcome.res true (allDoneMsg 2)
        [⟨['a'], true, successMsg 1 0 false⟩,
         ⟨['a'], true, successMsg 1 0 false⟩] := by
  rfl

end SougouWechat
